import Mathlib

/-!
Shallow embedding of the pinocchio-escrow program (src/lib.rs, src/state.rs,
src/instructions/make.rs, src/instructions/take.rs) and verification of the
frozen claims about its specification.

Machine bytes are modelled as `Nat` values (already reduced mod 256 where the
source produces them), addresses as byte lists, and accounts as immutable
snapshots of the runtime's `AccountView`.  The external collaborators (system
program, token program, associated-token-account program, and the SHA-256 based
program-derived-address scheme) are modelled at their interface boundary; the
derivation scheme's hash and curve test are explicit parameters so that the
structural behaviour of `find_program_address` is captured without fixing the
hash function.
-/

/-- Errors of `pinocchio::error::ProgramError` used by this program.
`derivationFailure` models the library abort when no viable bump exists. -/
inductive ProgramError where
  | invalidInstructionData
  | notEnoughAccountKeys
  | invalidAccountOwner
  | invalidAccountData
  | derivationFailure
deriving DecidableEq, Repr

/-- Snapshot of a `pinocchio::AccountView`: its address, owning program,
raw data bytes and signature flag. -/
structure AccountView where
  address : List Nat
  owner : List Nat
  data : List Nat
  isSigner : Bool
deriving DecidableEq, Repr

/-- Model of `AccountView::owned_by` from pinocchio. -/
def AccountView.ownedBy (a : AccountView) (pid : List Nat) : Bool :=
  a.owner = pid

/-- Model of `AccountView::data_len`. -/
def AccountView.dataLen (a : AccountView) : Nat :=
  a.data.length

/-- Model of `u64::from_le_bytes` on a little-endian byte list. -/
def bytesToNatLE : List Nat → Nat
  | [] => 0
  | b :: r => b % 256 + 256 * bytesToNatLE r

/-- Read `n` bytes at offset `off` of `d` as a little-endian number. -/
def readLE (d : List Nat) (off n : Nat) : Nat :=
  bytesToNatLE ((d.drop off).take n)

/-- Byte slice of `d` at offset `off`, length `n`. -/
def sliceBytes (d : List Nat) (off n : Nat) : List Nat :=
  (d.drop off).take n

/-- Model of `u64::to_le_bytes`. -/
def u64le (x : Nat) : List Nat :=
  (List.range 8).map fun i => x / 256 ^ i % 256

/-- The program's own ID, `crate::ID` from src/lib.rs. -/
def programID : List Nat :=
  [0x0f, 0x1e, 0x6b, 0x14, 0x21, 0xc0, 0x4a, 0x07,
   0x04, 0x31, 0x26, 0x5c, 0x19, 0xc5, 0xbb, 0xee,
   0x19, 0x92, 0xba, 0xe8, 0xaf, 0xd1, 0xcd, 0x07,
   0x8e, 0xf8, 0xaf, 0x70, 0x47, 0xdc, 0x11, 0xf7]

/-- Model of `pinocchio_system::ID`: the system program (all-zero address). -/
def systemID : List Nat :=
  List.replicate 32 0

/-- Model of `pinocchio_token::ID`: the SPL token program. -/
def tokenID : List Nat :=
  [6, 221, 246, 225, 215, 101, 161, 147, 217, 203, 225, 70, 206, 235, 121, 172,
   28, 180, 133, 237, 95, 91, 55, 145, 58, 140, 245, 133, 126, 255, 0, 169]

/-- The namespace tag `b"escrow"` used as the first derivation seed. -/
def escrowTag : List Nat :=
  [101, 115, 99, 114, 111, 119]

/-- The fixed marker bytes appended by the program-derived-address scheme
(ASCII of the PDA domain-separation string). -/
def pdaMarker : List Nat :=
  [80, 114, 111, 103, 114, 97, 109, 68, 101, 114, 105, 118, 101, 100,
   65, 100, 100, 114, 101, 115, 115]

/-- Model of `Escrow::LEN` from src/state.rs: 8 + 32*3 + 8 + 1. -/
def escrowLen : Nat := 113

/-- Model of `TokenAccount::LEN` of the SPL token account layout. -/
def tokenAccountLen : Nat := 165

/-- Interface model of the program-derived-address collaborator: an abstract
hash over the concatenated seed bytes and an abstract on-curve test. -/
structure DeriveScheme where
  hash : List Nat → List Nat
  onCurve : List Nat → Bool

/-- Model of `create_program_address`: hash the flattened seeds, the bump byte, the
program id and the marker; reject addresses that are valid signing keys. -/
def createProgramAddress (s : DeriveScheme) (seeds : List (List Nat))
    (bump : Nat) (pid : List Nat) : Option (List Nat) :=
  let img := s.hash (seeds.flatten ++ [bump] ++ pid ++ pdaMarker)
  if s.onCurve img then none else some img

/-- Bump search of `find_program_address`, counting the fuel value down. -/
def fpaGo (s : DeriveScheme) (seeds : List (List Nat)) (pid : List Nat) :
    Nat → Option (List Nat × Nat)
  | 0 => none
  | Nat.succ b =>
    match createProgramAddress s seeds (Nat.succ b) pid with
    | some a => some (a, Nat.succ b)
    | none => fpaGo s seeds pid b

/-- Model of `Address::find_program_address`: try bumps 255, 254, ..., 1. -/
def findProgramAddress (s : DeriveScheme) (seeds : List (List Nat))
    (pid : List Nat) : Option (List Nat × Nat) :=
  fpaGo s seeds pid 255

/-- The derivation Open performs (make.rs lines 43-50):
seeds `[b"escrow", maker, seed.to_le_bytes()]`. -/
def makeEscrowDerivation (s : DeriveScheme) (maker : List Nat) (seed : Nat) :
    Option (List Nat × Nat) :=
  findProgramAddress s [escrowTag, maker, u64le seed] programID

/-- The recomputation Settle performs (take.rs lines 52-57): seeds
`[b"escrow", maker, seed.to_le_bytes(), &escrow.bump]` — the stored bump is
passed as a fourth seed and `find_program_address` searches a further bump. -/
def takeEscrowDerivation (s : DeriveScheme) (maker : List Nat) (seed : Nat)
    (bumpBytes : List Nat) : Option (List Nat × Nat) :=
  findProgramAddress s [escrowTag, maker, u64le seed, bumpBytes] programID

/-- Decoded SPL token-account fields used by the program: mint at offset 0,
owner at offset 32, amount (LE) at offset 64. -/
structure TokenAccountData where
  mint : List Nat
  owner : List Nat
  amount : Nat
deriving DecidableEq, Repr

/-- Model of `TokenAccount::from_account_view`: length-checked decode of the custody
account layout (external collaborator, modelled at its interface). -/
def tokenAccountFromView (a : AccountView) : Except ProgramError TokenAccountData :=
  if a.data.length ≠ tokenAccountLen then .error .invalidAccountData
  else .ok ⟨sliceBytes a.data 0 32, sliceBytes a.data 32 32, readLE a.data 64 8⟩

/-- Model of `SignerAccount::check` (make.rs lines 236-244). -/
def signerCheck (a : AccountView) : Except ProgramError Unit :=
  if !a.isSigner then .error .invalidInstructionData else .ok ()

/-- Model of `MintInterface::check` (make.rs lines 249-257): owned by the token
program. -/
def mintInterfaceCheck (a : AccountView) : Except ProgramError Unit :=
  if !a.ownedBy tokenID then .error .invalidAccountOwner else .ok ()

/-- Model of `AssociatedTokenAccount::check` (make.rs lines 270-295). -/
def ataCheck (ata authority mint tokenProgram : AccountView) :
    Except ProgramError Unit :=
  if !ata.ownedBy tokenProgram.address then .error .invalidAccountOwner
  else if ata.dataLen ≠ tokenAccountLen then .error .invalidAccountData
  else
    match tokenAccountFromView ata with
    | .error e => .error e
    | .ok t =>
      if t.mint ≠ mint.address then .error .invalidAccountData
      else if t.owner ≠ authority.address then .error .invalidAccountData
      else .ok ()

/-- Model of `ProgramAccount::check` (make.rs lines 324-335).  Note: the owner test in
the source compares against `pinocchio_system::ID`, not `crate::ID`. -/
def programAccountCheck (a : AccountView) : Except ProgramError Unit :=
  if !a.ownedBy systemID then .error .invalidAccountOwner
  else if a.isSigner then .error .invalidInstructionData
  else if a.dataLen = 0 then .error .invalidAccountData
  else .ok ()

/-- Model of `MakeInstructionData` (make.rs lines 194-201). -/
structure MakeInstructionData where
  seed : Nat
  receive : Nat
  amount : Nat
deriving DecidableEq, Repr

/-- Model of `MakeInstructionData::try_from` (make.rs lines 203-228): exactly 24 bytes,
three little-endian u64 fields, non-zero deposit amount. -/
def makeInstructionDataTryFrom (d : List Nat) :
    Except ProgramError MakeInstructionData :=
  if d.length ≠ 24 then .error .invalidInstructionData
  else
    let seed := readLE d 0 8
    let receive := readLE d 8 8
    let amount := readLE d 16 8
    if amount = 0 then .error .invalidInstructionData
    else .ok ⟨seed, receive, amount⟩

/-- Model of `MakeAccounts` (make.rs lines 135-152). -/
structure MakeAccounts where
  maker : AccountView
  escrow : AccountView
  mint_a : AccountView
  mint_b : AccountView
  maker_ata_a : AccountView
  vault : AccountView
  system_program : AccountView
  token_program : AccountView
deriving DecidableEq, Repr

/-- Model of `MakeAccounts::try_from` (make.rs lines 154-191): exact 8-element slice
pattern, maker must sign, both mints must be owned by the *system* program
(as written in the source), and the maker's asset-A account must pass the
custody-account check. -/
def makeAccountsTryFrom (accounts : List AccountView) :
    Except ProgramError MakeAccounts :=
  match accounts with
  | [maker, escrow, mint_a, mint_b, maker_ata_a, vault, system_program,
     token_program] =>
    match signerCheck maker with
    | .error e => .error e
    | .ok _ =>
      if !mint_a.ownedBy systemID then .error .invalidAccountOwner
      else if !mint_b.ownedBy systemID then .error .invalidAccountOwner
      else
        match ataCheck maker_ata_a maker mint_a token_program with
        | .error e => .error e
        | .ok _ =>
          .ok ⟨maker, escrow, mint_a, mint_b, maker_ata_a, vault,
               system_program, token_program⟩
  | _ => .error .notEnoughAccountKeys

/-- Model of `Make` (make.rs lines 23-30). -/
structure Make where
  accounts : MakeAccounts
  instructionData : MakeInstructionData
  bump : Nat
deriving DecidableEq, Repr

/-- Model of `Make::try_from` (make.rs lines 32-59): parse accounts and data, derive
the expected escrow address, and require the supplied escrow slot to match. -/
def makeTryFrom (s : DeriveScheme) (accounts : List AccountView)
    (d : List Nat) : Except ProgramError Make :=
  match makeAccountsTryFrom accounts with
  | .error e => .error e
  | .ok a =>
    match makeInstructionDataTryFrom d with
    | .error e => .error e
    | .ok idata =>
      match makeEscrowDerivation s a.maker.address idata.seed with
      | none => .error .derivationFailure
      | some (escrowAddress, bump) =>
        if a.escrow.address ≠ escrowAddress then .error .invalidInstructionData
        else .ok ⟨a, idata, bump⟩

/-- External side effects (cross-program invocations and record writes) a
transition can perform, in the order the program issues them. -/
inductive Effect where
  | createAccount (payer newAccount : List Nat) (space : Nat) (owner : List Nat)
  | writeRecord (record : List Nat) (seed : Nat) (maker mintA mintB : List Nat)
      (receive : Nat) (bump : Nat)
  | createAta (payer ata wallet mint : List Nat)
  | createIdempotent (payer ata wallet mint : List Nat)
  | transfer (source dest authority : List Nat) (amount : Nat)
  | closeTokenAccount (acct dest authority : List Nat)
  | closeRecord (acct dest : List Nat)
deriving DecidableEq, Repr

/-- Whether an effect moves asset balances (a token transfer). -/
def Effect.isTransfer : Effect → Bool
  | .transfer _ _ _ _ => true
  | _ => false

/-- Outcome of running a transition: the side effects issued, in order, and
`none` on success or the error the transition failed with. -/
structure RunResult where
  effects : List Effect
  result : Option ProgramError
deriving DecidableEq, Repr

/-- Model of `Make::process` (make.rs lines 71-131): create the record account under
this program's ownership, populate the record (the freshly created account has
exactly `Escrow::LEN` bytes, so `Escrow::load_mut` succeeds), provision the
vault if its data is empty, and transfer the deposit from the maker's
asset-A account to the vault. -/
def makeProcess (m : Make) : RunResult :=
  let a := m.accounts
  let eCreate := Effect.createAccount a.maker.address a.escrow.address
      escrowLen programID
  let eWrite := Effect.writeRecord a.escrow.address m.instructionData.seed
      a.maker.address a.mint_a.address a.mint_b.address
      m.instructionData.receive m.bump
  let vaultEffects :=
    if a.vault.data.length = 0 then
      [Effect.createAta a.maker.address a.vault.address a.escrow.address
        a.mint_a.address]
    else []
  let eXfer := Effect.transfer a.maker_ata_a.address a.vault.address
      a.maker.address m.instructionData.amount
  ⟨[eCreate, eWrite] ++ vaultEffects ++ [eXfer], none⟩

/-- Open, end to end (lib.rs line 21): `Make::try_from(...)?.process()`. -/
def makeRun (s : DeriveScheme) (accounts : List AccountView) (d : List Nat) :
    RunResult :=
  match makeTryFrom s accounts d with
  | .error e => ⟨[], some e⟩
  | .ok m => makeProcess m

/-- Model of `TakeAccounts` (take.rs lines 105-117). -/
structure TakeAccounts where
  taker : AccountView
  maker : AccountView
  escrow : AccountView
  mint_a : AccountView
  mint_b : AccountView
  vault : AccountView
  taker_ata_a : AccountView
  taker_ata_b : AccountView
  maker_ata_b : AccountView
  system_program : AccountView
  token_program : AccountView
deriving DecidableEq, Repr

/-- Model of `TakeAccounts::try_from` (take.rs lines 119-147): exact 11-element slice
pattern, then signer, program-record, mint and custody-account checks. -/
def takeAccountsTryFrom (accounts : List AccountView) :
    Except ProgramError TakeAccounts :=
  match accounts with
  | [taker, maker, escrow, mint_a, mint_b, vault, taker_ata_a, taker_ata_b,
     maker_ata_b, system_program, token_program] =>
    match signerCheck taker with
    | .error e => .error e
    | .ok _ =>
      match programAccountCheck escrow with
      | .error e => .error e
      | .ok _ =>
        match mintInterfaceCheck mint_a with
        | .error e => .error e
        | .ok _ =>
          match mintInterfaceCheck mint_b with
          | .error e => .error e
          | .ok _ =>
            match ataCheck taker_ata_b taker mint_b token_program with
            | .error e => .error e
            | .ok _ =>
              match ataCheck vault escrow mint_a token_program with
              | .error e => .error e
              | .ok _ =>
                .ok ⟨taker, maker, escrow, mint_a, mint_b, vault, taker_ata_a,
                     taker_ata_b, maker_ata_b, system_program, token_program⟩
  | _ => .error .notEnoughAccountKeys

/-- First provisioning call of `Take::process` (take.rs lines 31-38), read
positionally against `init_if_needed(ata, mint, authority, payer, ...)`:
`ata := taker_ata_a`, `mint := taker`, `authority := mint_a`,
`payer := system_program`.  The emitted `CreateIdempotent` therefore has
`wallet := mint_a` and `mint := taker`. -/
def takeProvisionTakerAtaA (a : TakeAccounts) : Effect :=
  .createIdempotent a.system_program.address a.taker_ata_a.address
    a.mint_a.address a.taker.address

/-- Second provisioning call of `Take::process` (take.rs lines 40-47):
`ata := maker_ata_b`, `mint := mint_b`, `authority := taker`,
`payer := maker`. -/
def takeProvisionMakerAtaB (a : TakeAccounts) : Effect :=
  .createIdempotent a.maker.address a.maker_ata_b.address a.taker.address
    a.mint_b.address

/-- Model of `Take::process` (take.rs lines 29-102).  The two idempotent provisioning
calls run first (each emits its `CreateIdempotent` invocation and then re-runs
`AssociatedTokenAccount::check` with the arguments the source passes); then
the record is decoded (`Escrow::load` demands exactly `Escrow::LEN` bytes),
its address is recomputed from the *supplied maker account* plus the stored
seed and bump, and compared with the slot's address; then the vault balance is
read and the transfers, the vault close and the record close are issued.
`ProgramAccount::close` is referenced by take.rs but its definition is not
under src/; the final effect is modelled from the spec: destroy the record,
returning its balance to the taker. -/
def takeProcess (s : DeriveScheme) (a : TakeAccounts) : RunResult :=
  let e1 := takeProvisionTakerAtaA a
  match ataCheck a.taker_ata_a a.mint_a a.taker a.token_program with
  | .error e => ⟨[e1], some e⟩
  | .ok _ =>
    let e2 := takeProvisionMakerAtaB a
    match ataCheck a.maker_ata_b a.taker a.mint_b a.token_program with
    | .error e => ⟨[e1, e2], some e⟩
    | .ok _ =>
      if a.escrow.data.length ≠ escrowLen then
        ⟨[e1, e2], some .invalidInstructionData⟩
      else
        let storedSeed := readLE a.escrow.data 0 8
        let storedBump := sliceBytes a.escrow.data 112 1
        match takeEscrowDerivation s a.maker.address storedSeed storedBump with
        | none => ⟨[e1, e2], some .derivationFailure⟩
        | some (escrowAddress, _) =>
          if escrowAddress ≠ a.escrow.address then
            ⟨[e1, e2], some .invalidAccountData⟩
          else
            match tokenAccountFromView a.vault with
            | .error e => ⟨[e1, e2], some e⟩
            | .ok t =>
              let amount := t.amount
              ⟨[e1, e2,
                .transfer a.vault.address a.taker_ata_a.address
                  a.escrow.address amount,
                .closeTokenAccount a.vault.address a.maker.address
                  a.escrow.address,
                .transfer a.taker_ata_b.address a.maker_ata_b.address
                  a.taker.address amount,
                .closeRecord a.escrow.address a.taker.address], none⟩

/-- Settle, end to end (lib.rs line 22): `Take::try_from(...)?.process()`. -/
def takeRun (s : DeriveScheme) (accounts : List AccountView) : RunResult :=
  match takeAccountsTryFrom accounts with
  | .error e => ⟨[], some e⟩
  | .ok a => takeProcess s a

/-- Derivation-scheme instance with the identity hash (injective) and an
always-off-curve test; used to exhibit concrete derivation values. -/
def idScheme : DeriveScheme :=
  ⟨fun l => l, fun _ => false⟩

/-- Derivation-scheme instance producing 32-byte addresses (truncating hash,
always off curve); used to build concrete end-to-end runs. -/
def truncScheme : DeriveScheme :=
  ⟨fun l => (l ++ List.replicate 32 0).take 32, fun _ => false⟩

/-- A 32-byte address headed by the byte `k`. -/
def addrH (k : Nat) : List Nat :=
  k :: List.replicate 31 0

/-- Raw bytes of an SPL token account: mint, owner, little-endian amount,
then the remaining 93 bytes of the 165-byte layout. -/
def tokenDataOf (mint owner : List Nat) (amount : Nat) : List Nat :=
  mint ++ owner ++ u64le amount ++ List.replicate 93 0

/-- Raw bytes of an `Escrow` record as laid out by `#[repr(C)]` in
src/state.rs: seed at 0, maker at 8, mint_a at 40, mint_b at 72,
receive at 104, bump at 112. -/
def escrowRecordData (seed : Nat) (maker mintA mintB : List Nat)
    (receive bump : Nat) : List Nat :=
  u64le seed ++ maker ++ mintA ++ mintB ++ u64le receive ++ [bump]

deriving instance DecidableEq for Except

/-- System-program account reference. -/
def sysProgAcct : AccountView := ⟨systemID, systemID, [], false⟩

/-- Token-program account reference. -/
def tokProgAcct : AccountView := ⟨tokenID, systemID, [], false⟩

/-- Taker wallet: signs the Settle invocation. -/
def c1Taker : AccountView := ⟨addrH 1, systemID, [], true⟩

/-- Maker wallet as supplied to Settle. -/
def c1Maker : AccountView := ⟨addrH 2, systemID, [], false⟩

/-- Mint A reference as Settle expects it: owned by the token program. -/
def c1MintA : AccountView := ⟨addrH 3, tokenID, [], false⟩

/-- Mint B reference as Settle expects it: owned by the token program. -/
def c1MintB : AccountView := ⟨addrH 4, tokenID, [], false⟩

/-- Address `truncScheme` derives for seeds
`[b"escrow", addrH 2, u64le 7, [254]]`: the first 32 bytes of the flattened
seed material. -/
def escrowAddrC1 : List Nat := escrowTag ++ 2 :: List.replicate 25 0

/-- Record bytes written by Open(seed=7, receive=500) for maker `addrH 2`,
mints `addrH 3` / `addrH 4`, bump 254. -/
def c1EscrowData : List Nat :=
  escrowRecordData 7 (addrH 2) (addrH 3) (addrH 4) 500 254

/-- The record slot for the end-to-end Settle run.  Its owner is the system
program because `ProgramAccount::check` (as written) demands exactly that. -/
def c1Escrow : AccountView := ⟨escrowAddrC1, systemID, c1EscrowData, false⟩

/-- Vault custody account: asset A, controlled by the record's address,
holding 100 units — the deposit of Open(deposit=100). -/
def c1Vault : AccountView :=
  ⟨addrH 5, tokenID, tokenDataOf (addrH 3) escrowAddrC1 100, false⟩

/-- Taker's asset-A receiving account, shaped the way the *code's* scrambled
re-check demands: recorded mint = taker's address, recorded authority =
mint A's address. -/
def c1TakerAtaA : AccountView :=
  ⟨addrH 6, tokenID, tokenDataOf (addrH 1) (addrH 3) 0, false⟩

/-- Taker's asset-B holding account (correct shape: mint B, authority
taker), holding 800 units. -/
def c1TakerAtaB : AccountView :=
  ⟨addrH 7, tokenID, tokenDataOf (addrH 4) (addrH 1) 800, false⟩

/-- Maker's asset-B receiving account, shaped the way the code's scrambled
re-check demands: recorded authority = *taker's* address. -/
def c1MakerAtaB : AccountView :=
  ⟨addrH 8, tokenID, tokenDataOf (addrH 4) (addrH 1) 0, false⟩

/-- Account list of a Settle invocation that runs to completion under
`truncScheme`, on a record storing receive = 500 over a vault holding 100. -/
def c1Accounts : List AccountView :=
  [c1Taker, c1Maker, c1Escrow, c1MintA, c1MintB, c1Vault, c1TakerAtaA,
   c1TakerAtaB, c1MakerAtaB, sysProgAcct, tokProgAcct]

/-- A record account exactly as Open creates it: owned by this program
(`crate::ID`), not a signer, `Escrow::LEN` bytes of data. -/
def c3ProgramOwnedRecord : AccountView :=
  ⟨addrH 10, programID, c1EscrowData, false⟩

/-- The same record slot but owned by the system program — a foreign
service's account. -/
def c3SystemOwnedRecord : AccountView :=
  ⟨addrH 10, systemID, c1EscrowData, false⟩

/-- Maker wallet signing the Open invocation. -/
def mMaker : AccountView := ⟨addrH 2, systemID, [], true⟩

/-- Mint A reference shaped as Open's code demands: owned by the *system*
program. -/
def mMintA : AccountView := ⟨addrH 3, systemID, [], false⟩

/-- Mint B reference shaped as Open's code demands: owned by the system
program. -/
def mMintB : AccountView := ⟨addrH 4, systemID, [], false⟩

/-- Maker's asset-A holding account: mint A, authority maker, 100 units. -/
def mMakerAtaA : AccountView :=
  ⟨addrH 6, tokenID, tokenDataOf (addrH 3) (addrH 2) 100, false⟩

/-- Record-storage slot Open will allocate; its address matches the
`truncScheme` derivation for (maker = addrH 2, seed = 7). -/
def mEscrow : AccountView := ⟨escrowAddrC1, systemID, [], false⟩

/-- Empty vault slot for Open (no data yet, so Open provisions it). -/
def mVault : AccountView := ⟨addrH 5, systemID, [], false⟩

/-- Account list of an Open invocation that passes every check under
`truncScheme`. -/
def mAccounts : List AccountView :=
  [mMaker, mEscrow, mMintA, mMintB, mMakerAtaA, mVault, sysProgAcct,
   tokProgAcct]

/-- Parameter bytes of Open(seed=7, receive=500, deposit=100). -/
def d24 : List Nat := u64le 7 ++ u64le 500 ++ u64le 100

/-- Mint A owned by the token program, offered to Open. -/
def c4TokenMintA : AccountView := ⟨addrH 3, tokenID, [], false⟩

/-- Open account list identical to `mAccounts` except that mint A is owned
by the token program — the asset-registry service the spec names. -/
def c4Accounts : List AccountView :=
  [mMaker, mEscrow, c4TokenMintA, mMintB, mMakerAtaA, mVault, sysProgAcct,
   tokProgAcct]

/-- Taker's asset-A receiving account in its *correct* shape: recorded mint =
mint A, recorded authority = taker. -/
def c5TakerAtaA : AccountView :=
  ⟨addrH 6, tokenID, tokenDataOf (addrH 3) (addrH 1) 0, false⟩

/-- Settle account list identical to `c1Accounts` except the taker's asset-A
account has its correct shape. -/
def c5Accounts : List AccountView :=
  [c1Taker, c1Maker, c1Escrow, c1MintA, c1MintB, c1Vault, c5TakerAtaA,
   c1TakerAtaB, c1MakerAtaB, sysProgAcct, tokProgAcct]

/-- Record bytes whose stored maker field (`addrH 6`) differs from the maker
account Settle is invoked with (`addrH 2`). -/
def c6EscrowData : List Nat :=
  escrowRecordData 7 (addrH 6) (addrH 3) (addrH 4) 500 254

/-- Record slot holding `c6EscrowData` at the address derived from the
*supplied* maker `addrH 2`. -/
def c6Escrow : AccountView := ⟨escrowAddrC1, systemID, c6EscrowData, false⟩

/-- Settle account list whose record stores a maker different from the
supplied maker account. -/
def c6Accounts : List AccountView :=
  [c1Taker, c1Maker, c6Escrow, c1MintA, c1MintB, c1Vault, c1TakerAtaA,
   c1TakerAtaB, c1MakerAtaB, sysProgAcct, tokProgAcct]

/-- Record slot whose address (`addrH 9`) does not match any derivation. -/
def c6wEscrow : AccountView := ⟨addrH 9, systemID, c1EscrowData, false⟩

/-- Vault controlled by the mismatching record slot `addrH 9`. -/
def c6wVault : AccountView :=
  ⟨addrH 5, tokenID, tokenDataOf (addrH 3) (addrH 9) 100, false⟩

/-- The `TakeAccounts` value parsed from `c6wAccounts`. -/
def c6wParsed : TakeAccounts :=
  ⟨c1Taker, c1Maker, c6wEscrow, c1MintA, c1MintB, c6wVault, c1TakerAtaA,
   c1TakerAtaB, c1MakerAtaB, sysProgAcct, tokProgAcct⟩

/-- Settle account list whose record-slot address mismatches the code's
re-derivation. -/
def c6wAccounts : List AccountView :=
  [c1Taker, c1Maker, c6wEscrow, c1MintA, c1MintB, c6wVault, c1TakerAtaA,
   c1TakerAtaB, c1MakerAtaB, sysProgAcct, tokProgAcct]

/-- Record-storage slot at a wrong address for Open. -/
def c8Escrow : AccountView := ⟨addrH 9, systemID, [], false⟩

/-- The `MakeAccounts` value parsed from `c8Accounts`. -/
def c8Parsed : MakeAccounts :=
  ⟨mMaker, c8Escrow, mMintA, mMintB, mMakerAtaA, mVault, sysProgAcct,
   tokProgAcct⟩

/-- Open account list identical to `mAccounts` except that the supplied
record slot's address does not match the derivation. -/
def c8Accounts : List AccountView :=
  [mMaker, c8Escrow, mMintA, mMintB, mMakerAtaA, mVault, sysProgAcct,
   tokProgAcct]

/-- Parameter bytes with a zero deposit amount. -/
def dZeroDeposit : List Nat := u64le 7 ++ u64le 500 ++ u64le 0

/-- A featureless account used to build over-long account lists. -/
def blankAcct : AccountView := ⟨[], [], [], false⟩

/-- The `MakeAccounts` value parsed from `mAccounts`. -/
def mParsed : MakeAccounts :=
  ⟨mMaker, mEscrow, mMintA, mMintB, mMakerAtaA, mVault, sysProgAcct,
   tokProgAcct⟩

set_option maxRecDepth 10000

/-- Any address returned by the bump search is the scheme's hash of the
flattened seeds, the returned bump, the program id and the marker. -/
theorem fpaGo_addr (s : DeriveScheme) (seeds : List (List Nat)) (pid : List Nat) :
    ∀ fuel addr b, fpaGo s seeds pid fuel = some (addr, b) →
      addr = s.hash (seeds.flatten ++ [b] ++ pid ++ pdaMarker) := by
  intro fuel
  induction fuel with
  | zero => intro addr b h; simp [fpaGo] at h
  | succ n ih =>
    intro addr b h
    rw [fpaGo] at h
    rcases hc : createProgramAddress s seeds (Nat.succ n) pid with _ | a
    · rw [hc] at h
      exact ih addr b h
    · rw [hc] at h
      simp only [Option.some.injEq, Prod.mk.injEq] at h
      obtain ⟨ha, hb⟩ := h
      subst hb
      subst ha
      simp only [createProgramAddress] at hc
      rcases ite_eq_iff.mp hc with ⟨_, h2⟩ | ⟨_, h2⟩
      · simp at h2
      · rw [Option.some.injEq] at h2
        rw [← h2]

/-- Address characterization of `findProgramAddress`. -/
theorem findProgramAddress_addr (s : DeriveScheme) (seeds : List (List Nat))
    (pid : List Nat) (addr : List Nat) (b : Nat)
    (h : findProgramAddress s seeds pid = some (addr, b)) :
    addr = s.hash (seeds.flatten ++ [b] ++ pid ++ pdaMarker) :=
  fpaGo_addr s seeds pid 255 addr b h

/-- Account lists of any length other than 8 make Open's account parsing fail
with `NotEnoughAccountKeys`: the slice pattern is an exact-arity match. -/
theorem makeAccountsTryFrom_arity (l : List AccountView) (h : l.length ≠ 8) :
    makeAccountsTryFrom l = .error .notEnoughAccountKeys := by
  rcases l with _ | ⟨a1, _ | ⟨a2, _ | ⟨a3, _ | ⟨a4, _ | ⟨a5, _ | ⟨a6, _ | ⟨a7, _ | ⟨a8, _ | ⟨a9, t⟩⟩⟩⟩⟩⟩⟩⟩⟩ <;>
    first
      | rfl
      | (exfalso; simp at h)

/-- Account lists of any length other than 11 make Settle's account parsing
fail with `NotEnoughAccountKeys`. -/
theorem takeAccountsTryFrom_arity (l : List AccountView) (h : l.length ≠ 11) :
    takeAccountsTryFrom l = .error .notEnoughAccountKeys := by
  rcases l with _ | ⟨a1, _ | ⟨a2, _ | ⟨a3, _ | ⟨a4, _ | ⟨a5, _ | ⟨a6, _ | ⟨a7, _ | ⟨a8, _ | ⟨a9, _ | ⟨a10, _ | ⟨a11, _ | ⟨a12, t⟩⟩⟩⟩⟩⟩⟩⟩⟩⟩⟩⟩ <;>
    first
      | rfl
      | (exfalso; simp at h)

/-- Settle's processing either succeeds or has issued only provisioning
effects (never a token transfer) up to the point of failure. -/
theorem takeProcess_shape (s : DeriveScheme) (a : TakeAccounts) :
    (takeProcess s a).result = none ∨
      ∀ e ∈ (takeProcess s a).effects, e.isTransfer = false := by
  unfold takeProcess
  dsimp only
  repeat' split
  all_goals
    first
      | (left; rfl)
      | (right; intro e he; fin_cases he <;>
          simp [takeProvisionTakerAtaA, takeProvisionMakerAtaB, Effect.isTransfer])

/-- C1.  The claim says Settle's step (5) moves the record's stored `receive`
amount of asset B to the maker.  Evaluating the code at the failing input
Open(receive = 500, deposit = 100): a Settle run that completes on a record
storing receive = 500 over a vault holding 100 issues the asset-B transfer
from the taker's to the maker's account with amount 100 — the vault's asset-A
balance — and no transfer of 500 at all, because take.rs line 96 reuses
`amount` instead of `escrow.receive`. -/
theorem c1_settle_moves_vault_amount_of_asset_b :
    readLE c1EscrowData 104 8 = 500 ∧
    (takeRun truncScheme c1Accounts).result = none ∧
    Effect.transfer (addrH 7) (addrH 8) (addrH 1) 100 ∈
      (takeRun truncScheme c1Accounts).effects ∧
    Effect.transfer (addrH 7) (addrH 8) (addrH 1) 500 ∉
      (takeRun truncScheme c1Accounts).effects := by decide

/-- C2.  The claim says the derive/verify pair round-trips, so a record
populated by Open always passes Settle's re-derivation check.  In the code,
Settle passes the stored bump as an *extra seed* to the bump-searching
derivation, so for every collision-free hash the address Settle recomputes is
the hash of a strictly longer preimage than the address Open derived, and the
two always differ: the equality check rejects every record Open created. -/
theorem c2_settle_rederivation_differs_from_open (s : DeriveScheme)
    (hinj : Function.Injective s.hash) (maker : List Nat) (seed : Nat)
    (addr addr2 : List Nat) (bump bump2 : Nat)
    (hm : makeEscrowDerivation s maker seed = some (addr, bump))
    (ht : takeEscrowDerivation s maker seed [bump] = some (addr2, bump2)) :
    addr2 ≠ addr := by
  have h1 := findProgramAddress_addr s _ _ _ _ hm
  have h2 := findProgramAddress_addr s _ _ _ _ ht
  intro heq
  have hpre : ([escrowTag, maker, u64le seed, [bump]] : List (List Nat)).flatten
        ++ [bump2] ++ programID ++ pdaMarker
      = ([escrowTag, maker, u64le seed] : List (List Nat)).flatten
        ++ [bump] ++ programID ++ pdaMarker := by
    apply hinj
    rw [← h1, ← h2, heq]
  have hlen := congrArg List.length hpre
  simp [List.flatten_cons, List.flatten_nil, List.length_append] at hlen

/-- Witness for C2 at the identity hash and a concrete maker and seed. -/
theorem c2_settle_rederivation_differs_from_open_witness :
    ∃ addr bump addr2 bump2,
      makeEscrowDerivation idScheme (addrH 2) 7 = some (addr, bump) ∧
      takeEscrowDerivation idScheme (addrH 2) 7 [bump] = some (addr2, bump2) ∧
      addr2 ≠ addr := by
  refine ⟨escrowTag ++ addrH 2 ++ u64le 7 ++ [255] ++ programID ++ pdaMarker, 255,
    escrowTag ++ addrH 2 ++ u64le 7 ++ [255] ++ [255] ++ programID ++ pdaMarker, 255,
    by decide, by decide, ?_⟩
  exact c2_settle_rederivation_differs_from_open idScheme (fun {a b} h => h)
    (addrH 2) 7
    (escrowTag ++ addrH 2 ++ u64le 7 ++ [255] ++ programID ++ pdaMarker)
    (escrowTag ++ addrH 2 ++ u64le 7 ++ [255] ++ [255] ++ programID ++ pdaMarker)
    255 255 (by decide) (by decide)

/-- C3.  The claim says the program-record check fails unless the account is
owned by *this program*.  Evaluating the code: a record exactly as Open
creates it (owned by `crate::ID`, not a signer, `Escrow::LEN` bytes of data)
is rejected with `InvalidAccountOwner`, while the same record owned by the
*system program* passes the owner test — `ProgramAccount::check` compares
against `pinocchio_system::ID`.  The signer and non-empty-data legs behave as
claimed. -/
theorem c3_record_check_rejects_program_owned_record :
    programAccountCheck c3ProgramOwnedRecord = .error .invalidAccountOwner ∧
    programAccountCheck c3SystemOwnedRecord = .ok () ∧
    programAccountCheck ⟨addrH 10, systemID, c1EscrowData, true⟩ =
      .error .invalidInstructionData ∧
    programAccountCheck ⟨addrH 10, systemID, [], false⟩ =
      .error .invalidAccountData := by decide

/-- C4.  The claim says both Open and Settle require every mint reference to
be owned by the token service.  Evaluating the code: a mint owned by the
token program passes the asset-type validator `MintInterface::check` (used by
Settle), yet Open's account parsing rejects exactly that mint with
`InvalidAccountOwner` — make.rs lines 170-175 require mints owned by the
*system* program — and accepts system-owned mints. -/
theorem c4_open_rejects_token_owned_mint :
    mintInterfaceCheck c4TokenMintA = .ok () ∧
    makeAccountsTryFrom c4Accounts = .error .invalidAccountOwner ∧
    makeAccountsTryFrom mAccounts = .ok mParsed := by decide

/-- C5.  The claim says Settle re-checks the taker's receiving account
against authority = taker and asset type A.  Evaluating the code at the
failing input — a taker asset-A account of exactly that correct shape —
Settle's first provisioning step *fails* with `InvalidAccountData`, because
take.rs lines 31-38 pass `init_if_needed` its arguments in scrambled order:
the emitted create-if-absent invocation names `mint_a` as the wallet and the
taker as the mint, and the re-check demands recorded mint = taker and
recorded authority = mint A. -/
theorem c5_settle_provision_checks_wrong_roles :
    ataCheck c5TakerAtaA c1Taker c1MintA tokProgAcct = .ok () ∧
    (takeRun truncScheme c5Accounts).result = some .invalidAccountData ∧
    (takeRun truncScheme c5Accounts).effects =
      [Effect.createIdempotent systemID (addrH 6) (addrH 3) (addrH 1)] := by
  decide

/-- C6 counterexample.  A Settle invocation on a record whose identity
re-derived from the record's *stored* maker field (`addrH 6`) differs from
the slot's actual identity nevertheless succeeds and performs transfers,
because take.rs line 54 derives from the maker account supplied in the
account list (`addrH 2`), never reading the stored maker field. -/
theorem c6_stored_maker_mismatch_counterexample :
    sliceBytes c6EscrowData 8 32 = addrH 6 ∧
    takeEscrowDerivation truncScheme (addrH 6) (readLE c6EscrowData 0 8)
      (sliceBytes c6EscrowData 112 1) =
      some (escrowTag ++ 6 :: List.replicate 25 0, 255) ∧
    (escrowTag ++ 6 :: List.replicate 25 0) ≠ c6Escrow.address ∧
    (takeRun truncScheme c6Accounts).result = none ∧
    Effect.transfer (addrH 7) (addrH 8) (addrH 1) 100 ∈
      (takeRun truncScheme c6Accounts).effects := by decide

/-- C6 as amended: for every Settle invocation on a record whose identity,
re-derived from the record's stored seed and bump together with the
*supplied maker account*, differs from the record slot's actual identity,
the transition fails with `InvalidAccountData` and performs no asset
transfers (the only effects issued are the two provisioning calls). -/
theorem c6_rederivation_mismatch_fails (s : DeriveScheme)
    (accs : List AccountView) (a : TakeAccounts) (addr : List Nat) (b : Nat)
    (htf : takeAccountsTryFrom accs = .ok a)
    (hc1 : ataCheck a.taker_ata_a a.mint_a a.taker a.token_program = .ok ())
    (hc2 : ataCheck a.maker_ata_b a.taker a.mint_b a.token_program = .ok ())
    (hlen : a.escrow.data.length = escrowLen)
    (hder : takeEscrowDerivation s a.maker.address (readLE a.escrow.data 0 8)
      (sliceBytes a.escrow.data 112 1) = some (addr, b))
    (hne : addr ≠ a.escrow.address) :
    (takeRun s accs).result = some .invalidAccountData ∧
    ∀ e ∈ (takeRun s accs).effects, e.isTransfer = false := by
  have hrun : takeRun s accs =
      ⟨[takeProvisionTakerAtaA a, takeProvisionMakerAtaB a],
        some .invalidAccountData⟩ := by
    simp [takeRun, htf, takeProcess, hc1, hc2, hlen, hder, hne]
  rw [hrun]
  refine ⟨rfl, ?_⟩
  intro e he
  rcases List.mem_cons.mp he with rfl | he2
  · simp [takeProvisionTakerAtaA, Effect.isTransfer]
  · rcases List.mem_cons.mp he2 with rfl | he3
    · simp [takeProvisionMakerAtaB, Effect.isTransfer]
    · simp at he3

/-- Witness for the amended C6 at a concrete mismatching record slot. -/
theorem c6_rederivation_mismatch_fails_witness :
    (takeRun truncScheme c6wAccounts).result = some .invalidAccountData ∧
    ∀ e ∈ (takeRun truncScheme c6wAccounts).effects, e.isTransfer = false :=
  c6_rederivation_mismatch_fails truncScheme c6wAccounts c6wParsed
    (escrowTag ++ 2 :: List.replicate 25 0) 255
    (by decide) (by decide) (by decide) (by decide) (by decide) (by decide)

/-- C7 counterexample.  The claim says no external side effect happens before
every precondition check has passed, and in particular that Settle validates
the record before invoking any provisioning collaborator.  Here a Settle
invocation fails its record-identity precondition, yet its effect trace is
non-empty: the two idempotent provisioning invocations were already issued
(take.rs lines 31-47 run before the record check at lines 49-60). -/
theorem c7_settle_provisions_before_record_check :
    (takeRun truncScheme c6wAccounts).result = some .invalidAccountData ∧
    (takeRun truncScheme c6wAccounts).effects ≠ [] := by decide

/-- C7 as amended: Open performs no side effect before all of its checks
pass; Settle performs its account-shape checks before any side effect, but
issues the two idempotent provisioning invocations before the record's
decode and identity re-derivation checks — so any failing Settle run has
issued at most provisioning effects, never a token transfer. -/
theorem c7_fail_closed_amended :
    (∀ (s : DeriveScheme) (accs : List AccountView) (d : List Nat),
      (makeRun s accs d).effects ≠ [] → ∃ m, makeTryFrom s accs d = .ok m) ∧
    (∀ (accs : List AccountView) (err : ProgramError),
      takeAccountsTryFrom accs = .error err →
        ∀ s, takeRun s accs = ⟨[], some err⟩) ∧
    (∀ (s : DeriveScheme) (accs : List AccountView) (err : ProgramError),
      (takeRun s accs).result = some err →
        ∀ e ∈ (takeRun s accs).effects, e.isTransfer = false) := by
  refine ⟨?_, ?_, ?_⟩
  · intro s accs d h
    cases hm : makeTryFrom s accs d with
    | error e => exfalso; apply h; simp [makeRun, hm]
    | ok m => exact ⟨m, rfl⟩
  · intro accs err h s
    simp [takeRun, h]
  · intro s accs err hres e he
    cases htf : takeAccountsTryFrom accs with
    | error e2 => simp [takeRun, htf] at he
    | ok a =>
      simp only [takeRun, htf] at hres he
      rcases takeProcess_shape s a with h | h
      · rw [h] at hres; cases hres
      · exact h e he

/-- Witness for the amended C7: an Open run with a non-empty effect trace
has passed all of `Make::try_from`'s checks. -/
theorem c7_fail_closed_witness :
    ∃ m, makeTryFrom truncScheme mAccounts d24 = .ok m :=
  c7_fail_closed_amended.1 truncScheme mAccounts d24 (by decide)

/-- C8.  For every Open invocation whose supplied record-slot identity
differs from the derived identity (account and data parsing having
succeeded and the bump search having found a bump), the transition fails
with `InvalidInstructionData` and performs no side effect. -/
theorem c8_open_escrow_address_mismatch_fails (s : DeriveScheme)
    (accs : List AccountView) (d : List Nat)
    (a : MakeAccounts) (idata : MakeInstructionData) (addr : List Nat) (b : Nat)
    (ha : makeAccountsTryFrom accs = .ok a)
    (hd : makeInstructionDataTryFrom d = .ok idata)
    (hder : makeEscrowDerivation s a.maker.address idata.seed = some (addr, b))
    (hne : a.escrow.address ≠ addr) :
    makeRun s accs d = ⟨[], some .invalidInstructionData⟩ := by
  simp [makeRun, makeTryFrom, ha, hd, hder, hne]

/-- Witness for C8 at a concrete wrong-address record slot. -/
theorem c8_open_escrow_address_mismatch_fails_witness :
    makeRun truncScheme c8Accounts d24 = ⟨[], some .invalidInstructionData⟩ :=
  c8_open_escrow_address_mismatch_fails truncScheme c8Accounts d24 c8Parsed
    ⟨7, 500, 100⟩ (escrowTag ++ 2 :: List.replicate 25 0) 255
    (by decide) (by decide) (by decide) (by decide)

/-- C9.  Decoding Open's parameter bytes succeeds iff the input is exactly
24 bytes with a non-zero deposit amount in the third little-endian field;
any other input fails with `InvalidInstructionData`; on success the three
fields are read little-endian at offsets 0, 8 and 16 in the order seed,
receive, deposit. -/
theorem c9_open_data_decode_exact (d : List Nat) :
    ((∃ r, makeInstructionDataTryFrom d = .ok r) ↔
      (d.length = 24 ∧ readLE d 16 8 ≠ 0)) ∧
    (¬(d.length = 24 ∧ readLE d 16 8 ≠ 0) →
      makeInstructionDataTryFrom d = .error .invalidInstructionData) ∧
    (d.length = 24 → readLE d 16 8 ≠ 0 →
      makeInstructionDataTryFrom d =
        .ok ⟨readLE d 0 8, readLE d 8 8, readLE d 16 8⟩) := by
  unfold makeInstructionDataTryFrom
  by_cases hl : d.length = 24
  · by_cases hz : readLE d 16 8 = 0
    · simp [hl, hz]
    · simp [hl, hz]
  · simp [hl]

/-- Witness for C9: a 24-byte input with deposit 100 decodes, a zero-deposit
input and a 16-byte input fail. -/
theorem c9_open_data_decode_exact_witness :
    makeInstructionDataTryFrom d24 =
      .ok ⟨readLE d24 0 8, readLE d24 8 8, readLE d24 16 8⟩ ∧
    makeInstructionDataTryFrom dZeroDeposit = .error .invalidInstructionData ∧
    makeInstructionDataTryFrom (u64le 7 ++ u64le 500) =
      .error .invalidInstructionData :=
  ⟨(c9_open_data_decode_exact d24).2.2 (by decide) (by decide),
   (c9_open_data_decode_exact dZeroDeposit).2.1 (by decide),
   (c9_open_data_decode_exact (u64le 7 ++ u64le 500)).2.1 (by decide)⟩

/-- C10.  Account lists longer than the required arity (8 for Open, 11 for
Settle) are rejected with `NotEnoughAccountKeys` and no side effect: the
slice patterns match exactly, so extra trailing accounts are not
tolerated. -/
theorem c10_arity_exact :
    (∀ (l : List AccountView), 8 < l.length → ∀ s d,
      makeRun s l d = ⟨[], some .notEnoughAccountKeys⟩) ∧
    (∀ (l : List AccountView), 11 < l.length → ∀ s,
      takeRun s l = ⟨[], some .notEnoughAccountKeys⟩) := by
  constructor
  · intro l h s d
    have harity := makeAccountsTryFrom_arity l (by omega)
    simp [makeRun, makeTryFrom, harity]
  · intro l h s
    have harity := takeAccountsTryFrom_arity l (by omega)
    simp [takeRun, harity]

/-- Witness for C10 at 9-element and 12-element account lists. -/
theorem c10_arity_exact_witness :
    makeRun truncScheme (List.replicate 9 blankAcct) d24 =
      ⟨[], some .notEnoughAccountKeys⟩ ∧
    takeRun truncScheme (List.replicate 12 blankAcct) =
      ⟨[], some .notEnoughAccountKeys⟩ :=
  ⟨c10_arity_exact.1 (List.replicate 9 blankAcct) (by decide) truncScheme d24,
   c10_arity_exact.2 (List.replicate 12 blankAcct) (by decide) truncScheme⟩
